import Mathlib

/-!
Verification development for the Telegram cryptocurrency bot worker
(src/worker.js).  The worker's functions are shallowly embedded as Lean
definitions: upstream HTTP calls and the Telegram send API are modelled as
explicit outcome values passed in, JavaScript numbers appearing in payloads
are modelled as rationals, and thrown JavaScript errors are modelled with
Except.  Each definition carries a note naming the source function it embeds.
-/

namespace TgBot

/-! ## JavaScript-style string and number helpers -/

/-- Model of a character list lower-casing, embedding JS
String.prototype.toLowerCase as used in handleTelegramUpdate (ASCII case). -/
def toLowerStr (s : String) : String :=
  String.mk (s.data.map Char.toLower)

/-- Model of JS String.prototype.toUpperCase as used on coin symbols. -/
def toUpperStr (s : String) : String :=
  String.mk (s.data.map Char.toUpper)

/-- Model of JS String.prototype.startsWith. -/
def strStartsWith (s pat : String) : Bool :=
  pat.data.isPrefixOf s.data

/-- Drop the first n characters of a string. -/
def strDrop (s : String) (n : Nat) : String :=
  String.mk (s.data.drop n)

/-- Split a character list at every character satisfying p; adjacent
separators produce empty fields, exactly like JS String.prototype.split. -/
def splitOnPred (p : Char → Bool) : List Char → List (List Char)
  | [] => [[]]
  | c :: rest =>
    let r := splitOnPred p rest
    if p c then [] :: r
    else
      match r with
      | [] => [[c]]
      | h :: t => (c :: h) :: t

/-- Model of JS text.split(' ') as used for the /price argument:
split on each single space, keeping empty fields. -/
def jsSplitSpace (s : String) : List String :=
  (splitOnPred (fun c => c = (' ')) s.data).map (fun l => String.mk l)

/-- JS truthiness of a possibly-absent number: undefined, null and 0 are
falsy (NaN is not representable in the rational model). -/
def jsTruthyNum (o : Option ℚ) : Bool :=
  match o with
  | none => false
  | some q => decide (q ≠ 0)

/-- JS truthiness of a possibly-absent string: undefined, null and the
empty string are falsy. -/
def jsTruthyStr (o : Option String) : Bool :=
  match o with
  | none => false
  | some s => decide (s ≠ (""))

/-- JS `o || d` on numbers. -/
def jsNumOr (o : Option ℚ) (d : ℚ) : ℚ :=
  if jsTruthyNum o then o.getD d else d

/-- JS `o || d` on strings. -/
def jsStrOr (o : Option String) (d : String) : String :=
  if jsTruthyStr o then o.getD d else d

/-- Floor of a rational as an integer (used to model JS number
formatting). -/
def ratFloor (q : ℚ) : ℤ :=
  q.num.fdiv (q.den : ℤ)

/-- Round a rational half-up, modelling the rounding JS number formatting
performs. -/
def jsRound (q : ℚ) : ℤ :=
  ratFloor (q + (1/2 : ℚ))

/-- Insert a comma after every group of three characters; the input is the
reversed digit list of the integer part. -/
def groupChars : List Char → List Char
  | a :: b :: c :: d :: rest => a :: b :: c :: (',') :: groupChars (d :: rest)
  | l => l

/-- Drop trailing zero characters (JS locale formatting trims them from the
fraction part). -/
def trimTrailingZeros (s : String) : String :=
  String.mk (s.data.reverse.dropWhile (fun c => c = ('0'))).reverse

/-- Left-pad a numeral string with zeros up to width w. -/
def padZeros (w : Nat) (s : String) : String :=
  String.mk (List.replicate (w - s.length) ('0')) ++ s

/-- Model of JS Number.prototype.toLocaleString on the payload numbers:
thousands grouping on the integer part and at most three (trimmed)
fraction digits.  The grouping and rounding details are not load-bearing
for any claim; only that the result is a plain text rendering is. -/
def toLocaleString (q : ℚ) : String :=
  let m := jsRound (|q| * 1000)
  let ip := (m / 1000).toNat
  let fp := (m % 1000).toNat
  let ipStr := String.mk (groupChars (toString ip).data.reverse).reverse
  let fpStr :=
    if fp = 0 then ("") else (".") ++ trimTrailingZeros (padZeros 3 (toString fp))
  (if q < 0 then ("-") else ("")) ++ ipStr ++ fpStr

/-- Model of JS Number.prototype.toFixed(d): fixed-point rendering with
exactly d fraction digits. -/
def toFixedN (d : Nat) (q : ℚ) : String :=
  let p : ℤ := (10 : ℤ) ^ d
  let m := jsRound (|q| * (p : ℚ))
  let ip := (m / p).toNat
  let fp := (m % p).toNat
  (if q < 0 then ("-") else ("")) ++ toString ip ++
    (if d = 0 then ("") else (".") ++ padZeros d (toString fp))

/-- Model of JS Number.prototype.toString on payload numbers (used for the
progress field): integers print as their digits, other values as a
fixed-point decimal. -/
def jsNumToString (q : ℚ) : String :=
  if q.den = 1 then toString q.num else toFixedN 6 q

/-! ## Markup escaper (worker.js escapeMarkdown, lines 534-537) -/

/-- The reserved MarkdownV2 character class of the escapeMarkdown regex. -/
def reservedList : List Char :=
  [('_'), ('*'), ('['), (']'), ('('), (')'), ('~'), Char.ofNat 96,
   ('>'), ('#'), ('+'), ('-'), ('='), ('|'), Char.ofNat 123, Char.ofNat 125,
   ('.'), ('!')]

/-- Whether a character is in the reserved set of the escapeMarkdown
regex character class. -/
def isReservedChar (c : Char) : Bool :=
  reservedList.contains c

/-- Image of one character under the escapeMarkdown replacement: reserved
characters gain a leading backslash, all others are unchanged. -/
def escapeChar (c : Char) : List Char :=
  if isReservedChar c then [('\\'), c] else [c]

/-- The escapeMarkdown replacement applied across a character list. -/
def escapeList (l : List Char) : List Char :=
  (l.map escapeChar).flatten

/-- Embedding of escapeMarkdown (worker.js lines 534-537): null or
undefined input yields the empty string, otherwise every reserved
character is prefixed with a backslash. -/
def escapeMarkdown (t : Option String) : String :=
  match t with
  | none => ("")
  | some s => String.mk (escapeList s.data)

/-- escapeMarkdown applied to a present string (the common call shape). -/
def escS (s : String) : String :=
  escapeMarkdown (some s)

/-- Substring test over character lists (execution-friendly). -/
def listContainsSub (pat : List Char) : List Char → Bool
  | [] => pat.isEmpty
  | c :: rest => pat.isPrefixOf (c :: rest) || listContainsSub pat rest

/-- Whether pat occurs as a contiguous substring of s. -/
def strContains (s pat : String) : Bool :=
  listContainsSub pat.data s.data

/-! ## Data model

Records carried by the worker: the inbound Telegram update, the payload
rows of the CoinGecko endpoints, and the Axiom pulse listings.  Optional
JS fields are Option-valued. -/

/-- The chat object of a Telegram message; its id field may be absent. -/
structure Chat where
  id : Option Int
deriving DecidableEq

/-- The message object of a Telegram update; chat or text may be absent. -/
structure Message where
  chat : Option Chat
  text : Option String
deriving DecidableEq

/-- An inbound Telegram update; the message field may be absent. -/
structure Update where
  message : Option Message
deriving DecidableEq

/-- Outcome of one upstream fetch: a parsed payload, or a thrown error
(non-success status or transport failure - both take the same catch
path in every CoinGecko handler). -/
inductive FetchResult (α : Type) where
  | ok (v : α)
  | err
deriving DecidableEq

/-- The data.data record of the CoinGecko /global response. -/
structure GlobalStats where
  total_market_cap_usd : ℚ
  total_volume_usd : ℚ
  btc_dominance : ℚ
  active_cryptocurrencies : ℤ
  markets : ℤ
deriving DecidableEq

/-- One row of the CoinGecko /coins/markets response (top-10 command). -/
structure MarketCoin where
  name : String
  symbol : String
  current_price : ℚ
  price_change_percentage_24h : Option ℚ
  market_cap : ℚ
  total_volume : ℚ
deriving DecidableEq

/-- One item of the CoinGecko /search/trending response. -/
structure TrendingCoin where
  name : String
  symbol : String
  market_cap_rank : ℤ
  price_btc : ℚ
deriving DecidableEq

/-- One hit of the CoinGecko /search response. -/
structure SearchHit where
  id : String
deriving DecidableEq

/-- The detail record of the CoinGecko /coins/id response. -/
structure CoinDetail where
  name : String
  symbol : String
  current_price : ℚ
  price_change_percentage_24h : Option ℚ
  high_24h : ℚ
  low_24h : ℚ
  market_cap : ℚ
  market_cap_rank : ℤ
  total_volume : ℚ
deriving DecidableEq

/-- A pulse listing record; every field is optional, as in the JS
payloads and mock data (absent fields are simply missing from the JS
object). -/
structure PulseCoin where
  name : Option String := none
  symbol : Option String := none
  price : Option ℚ := none
  marketCap : Option ℚ := none
  volume24h : Option ℚ := none
  holders : Option ℚ := none
  age : Option String := none
  change24h : Option ℚ := none
  progress : Option ℚ := none
  migrationTime : Option String := none
deriving DecidableEq

/-- Top-level shape of a parsed Axiom pulse JSON body, as discriminated by
fetchAxiomPulseData (worker.js lines 402-411): a bare array, a record
with a data array, a record with a tokens array, or anything else. -/
inductive JsonShape where
  | arr (xs : List PulseCoin)
  | dataField (xs : List PulseCoin)
  | tokensField (xs : List PulseCoin)
  | other
deriving DecidableEq

/-- Outcome of one Axiom pulse request: the fetch or JSON parse threw
(transportError), the response had a non-success status (httpError), or a
body was parsed (payload). -/
inductive AxiomResponse where
  | transportError
  | httpError
  | payload (sh : JsonShape)
deriving DecidableEq

/-- Whether an Axiom request outcome is a failure (transport failure or
non-success status). -/
def AxiomResponse.isFailure : AxiomResponse → Bool
  | .transportError => true
  | .httpError => true
  | .payload _ => false

/-- State of a settled promise, as inspected by handlePulseCommand after
Promise.allSettled. -/
inductive Settled (α : Type) where
  | fulfilled (v : α)
  | rejected
deriving DecidableEq

/-- status === 'rejected' test on a settled promise. -/
def Settled.isRejected {α : Type} : Settled α → Bool
  | .rejected => true
  | .fulfilled _ => false

/-- status === 'fulfilled' && value.length === 0 test on a settled list. -/
def Settled.isEmptyFulfilled : Settled (List PulseCoin) → Bool
  | .rejected => false
  | .fulfilled v => v.length == 0

/-- Upstream outcomes for the three Axiom pulse sections. -/
structure PulseEnv where
  newPairs : AxiomResponse
  finalStretch : AxiomResponse
  migrated : AxiomResponse
deriving DecidableEq

/-- Upstream outcomes for the two-step /price lookup: the search response
(whose coins field may be absent) and the coin-detail response. -/
structure PriceEnv where
  search : FetchResult (Option (List SearchHit))
  detail : FetchResult CoinDetail
deriving DecidableEq

/-- All upstream outcomes a single dispatch may consume. -/
structure Env where
  globalStats : FetchResult GlobalStats
  top10 : FetchResult (List MarketCoin)
  trending : FetchResult (List TrendingCoin)
  price : PriceEnv
  pulse : PulseEnv
deriving DecidableEq

/-- One outbound sendMessage call: the chat_id (absent when chat.id was
undefined) and the MarkdownV2 text. -/
structure SendCall where
  chatId : Option Int
  text : String
deriving DecidableEq

/-- Accumulated outbound send attempts plus the index of the next attempt
(consumed by the delivery oracle). -/
structure SendState where
  sends : List SendCall
  next : Nat
deriving DecidableEq

/-- Result of handleTelegramUpdate: the send attempts made and whether an
uncaught error escaped the handler (the webhook response is unaffected
either way, since the handler runs under ctx.waitUntil). -/
structure DispatchResult where
  sends : List SendCall
  threw : Bool
deriving DecidableEq

/-- The parsed command variants of the dispatch chain in
handleTelegramUpdate (worker.js lines 103-126).  The /price argument is
text.split(' ')[1], which is absent when indexing past the array. -/
inductive Command where
  | help
  | top10
  | trending
  | pulse
  | globalCmd
  | price (arg : Option String)
  | unrecognized
deriving DecidableEq

/-! ## Outbound sender (worker.js sendMessage, lines 548-578)

The function records one POST attempt; if the platform rejects it the
JS code logs the error and rethrows it, so the model returns an
Except.error carrying the state after the failed attempt. -/

/-- Embedding of sendMessage: one attempt, delivery decided by the
oracle on the attempt index; on rejection the error is logged and
rethrown (Except.error). -/
def sendMessage (delivery : Nat → Bool) (chatId : Option Int) (text : String)
    (st : SendState) : Except SendState SendState :=
  let st2 : SendState := ⟨st.sends ++ [⟨chatId, text⟩], st.next + 1⟩
  if delivery st.next then .ok st2 else .error st2

/-- A JS try/catch whose body and handler both produce send state. -/
def tryCatch (body : Except SendState SendState)
    (handler : SendState → Except SendState SendState) :
    Except SendState SendState :=
  match body with
  | .ok st => .ok st
  | .error st => handler st

/-! ## Message builders (pure string formatting in each handler) -/

/-- The /start and /help reply text (worker.js lines 104-114). -/
def helpText : String :=
  ("Welcome to the Crypto Price Bot\\! 🚀\n\n") ++
  ("Available commands:\n") ++
  ("/price \\<coin\\> \\- Get price for a specific coin \\(e\\.g\\., /price bitcoin\\)\n") ++
  ("/top10 \\- Get top 10 cryptocurrencies by market cap\n") ++
  ("/trending \\- Show trending coins\n") ++
  ("/pulse \\- Show new coins from Axiom Trade \\(New Pairs, Final Stretch, Migrated\\)\n") ++
  ("/global \\- Show global market stats\n") ++
  ("/help \\- Show this help message")

/-- The /global reply text (worker.js lines 148-155). -/
def globalMessage (stats : GlobalStats) : String :=
  ("🌍 *Global Crypto Market Stats*\n\n") ++
  ("Total Market Cap: $") ++ escS (toLocaleString stats.total_market_cap_usd) ++ ("\n") ++
  ("24h Volume: $") ++ escS (toLocaleString stats.total_volume_usd) ++ ("\n") ++
  ("BTC Dominance: ") ++ escS (toFixedN 2 stats.btc_dominance) ++ ("\\%\n") ++
  ("Active Cryptocurrencies: ") ++ escS (toString stats.active_cryptocurrencies) ++ ("\n") ++
  ("Markets: ") ++ escS (toString stats.markets) ++ ("\n\n") ++
  ("/help \\- Show commands")

/-- One numbered row of the /top10 reply (worker.js lines 292-301). -/
def top10Entry (coin : MarketCoin) (idx : Nat) : String :=
  let priceChange := jsNumOr coin.price_change_percentage_24h 0
  let priceChangeIcon := if 0 ≤ priceChange then ("🟢") else ("🔴")
  toString idx ++ ("\\. ") ++ escS coin.name ++ (" \\(") ++
    escS (toUpperStr coin.symbol) ++ ("\\)\n") ++
  ("💵 Price: $") ++ escS (toLocaleString coin.current_price) ++ ("\n") ++
  priceChangeIcon ++ (" 24h: ") ++ escS (toFixedN 2 priceChange) ++ ("\\%\n") ++
  ("💎 Market Cap: $") ++ escS (toLocaleString coin.market_cap) ++ ("\n") ++
  ("📊 Volume: $") ++ escS (toLocaleString coin.total_volume) ++ ("\n\n")

/-- The /top10 reply text (worker.js lines 290-303). -/
def top10Message (coins : List MarketCoin) : String :=
  ("📊 *Top 10 Cryptocurrencies*\n\n") ++
  String.join (coins.enum.map (fun p => top10Entry p.2 (p.1 + 1))) ++
  ("\n/help \\- Show commands")

/-- One numbered row of the /trending reply (worker.js lines 246-251). -/
def trendingEntry (coin : TrendingCoin) (idx : Nat) : String :=
  toString idx ++ ("\\. ") ++ escS coin.name ++ (" \\(") ++
    escS (toUpperStr coin.symbol) ++ ("\\)\n") ++
  ("Market Cap Rank: \\#") ++ toString coin.market_cap_rank ++ ("\n") ++
  ("Price BTC: ") ++ escS (toFixedN 8 coin.price_btc) ++ ("\n\n")

/-- The /trending reply text (worker.js lines 244-253). -/
def trendingMessage (coins : List TrendingCoin) : String :=
  ("🔥 *Trending Cryptocurrencies*\n\n") ++
  String.join (coins.enum.map (fun p => trendingEntry p.2 (p.1 + 1))) ++
  ("\n/help \\- Show commands")

/-- The /price detail reply text (worker.js lines 350-361). -/
def priceMessage (d : CoinDetail) : String :=
  let priceChange := jsNumOr d.price_change_percentage_24h 0
  let priceChangeIcon := if 0 ≤ priceChange then ("🟢") else ("🔴")
  ("💰 ") ++ escS d.name ++ (" \\(") ++ escS (toUpperStr d.symbol) ++ ("\\)\n\n") ++
  ("Current Price: $") ++ escS (toLocaleString d.current_price) ++ ("\n") ++
  priceChangeIcon ++ (" 24h Change: ") ++ escS (toFixedN 2 priceChange) ++ ("\\%\n") ++
  ("📈 24h High: $") ++ escS (toLocaleString d.high_24h) ++ ("\n") ++
  ("📉 24h Low: $") ++ escS (toLocaleString d.low_24h) ++ ("\n") ++
  ("💎 Market Cap: $") ++ escS (toLocaleString d.market_cap) ++ ("\n") ++
  ("📊 Market Cap Rank: \\#") ++ toString d.market_cap_rank ++ ("\n") ++
  ("💫 Volume: $") ++ escS (toLocaleString d.total_volume) ++ ("\n") ++
  ("/help \\- Show commands")

/-! ## Pulse data client (worker.js getMockPulseData and
fetchAxiomPulseData, lines 376-479) -/

/-- Embedding of getMockPulseData (worker.js lines 426-479): the fixed
fallback fixtures, keyed by section; unknown sections yield []. -/
def getMockPulseData (sec : String) : List PulseCoin :=
  if sec = ("new-pairs") then
    [{ name := some ("PEPE2.0"), symbol := some ("PEPE2"),
       price := some (0.000001234 : ℚ), marketCap := some (1250000 : ℚ),
       volume24h := some (450000 : ℚ), holders := some (1250 : ℚ),
       age := some ("15m"), change24h := some (45.67 : ℚ) },
     { name := some ("DogeCoin Classic"), symbol := some ("DOGEC"),
       price := some (0.00234 : ℚ), marketCap := some (890000 : ℚ),
       volume24h := some (320000 : ℚ), holders := some (890 : ℚ),
       age := some ("8m"), change24h := some (-12.34 : ℚ) }]
  else if sec = ("final-stretch") then
    [{ name := some ("MoonShot Token"), symbol := some ("MOON"),
       price := some (0.0456 : ℚ), marketCap := some (2340000 : ℚ),
       volume24h := some (890000 : ℚ), holders := some (2100 : ℚ),
       age := some ("2h"), change24h := some (123.45 : ℚ),
       progress := some (85 : ℚ) }]
  else if sec = ("migrated") then
    [{ name := some ("Successful Meme"), symbol := some ("SMEME"),
       price := some (0.234 : ℚ), marketCap := some (15600000 : ℚ),
       volume24h := some (3400000 : ℚ), holders := some (8900 : ℚ),
       age := some ("1d"), change24h := some (234.56 : ℚ),
       migrationTime := some ("2h ago") }]
  else []

/-- Embedding of fetchAxiomPulseData (worker.js lines 376-417).  The
whole body sits in a try whose catch returns mock data, so every
outcome yields a list: a non-success status returns the mock data, a
thrown fetch or JSON parse hits the catch and returns the mock data,
and a parsed payload is normalized by shape (bare array, data array,
tokens array, otherwise empty). -/
def fetchAxiomPulseData (sec : String) (r : AxiomResponse) : List PulseCoin :=
  match r with
  | .transportError => getMockPulseData sec
  | .httpError => getMockPulseData sec
  | .payload (.arr xs) => xs
  | .payload (.dataField xs) => xs
  | .payload (.tokensField xs) => xs
  | .payload .other => []

/-- How the promise of fetchAxiomPulseData settles under
Promise.allSettled: its body never throws (the catch handler is total),
so the promise always fulfills with the function's value. -/
def settleAxiomFetch (sec : String) (r : AxiomResponse) :
    Settled (List PulseCoin) :=
  .fulfilled (fetchAxiomPulseData sec r)

/-! ## Pulse listing formatter (worker.js formatCoinInfo, lines 488-525) -/

/-- Embedding of formatCoinInfo: a numbered title line, a 24h-change
line that is always present (defaulting to 0.00 with the green icon),
and one optional line per remaining field, rendered only when the field
is JS-truthy (present, and non-zero or non-empty). -/
def formatCoinInfo (coin : PulseCoin) (index : Nat) : String :=
  let priceChangeIcon := if 0 ≤ jsNumOr coin.change24h 0 then ("🟢") else ("🔴")
  let priceChange :=
    if jsTruthyNum coin.change24h then toFixedN 2 (coin.change24h.getD 0) else ("0.00")
  let info := toString index ++ ("\\. ") ++ escS (jsStrOr coin.name ("Unknown")) ++
    (" \\(") ++ escS (toUpperStr (jsStrOr coin.symbol ("N/A"))) ++ ("\\)\n")
  let info := info ++
    (if jsTruthyNum coin.price then
      ("💰 Price: $") ++ escS (toLocaleString (coin.price.getD 0)) ++ ("\n")
     else (""))
  let info := info ++ priceChangeIcon ++ (" 24h: ") ++ escS priceChange ++ ("\\%\n")
  let info := info ++
    (if jsTruthyNum coin.marketCap then
      ("💎 Market Cap: $") ++ escS (toLocaleString (coin.marketCap.getD 0)) ++ ("\n")
     else (""))
  let info := info ++
    (if jsTruthyNum coin.volume24h then
      ("📊 Volume: $") ++ escS (toLocaleString (coin.volume24h.getD 0)) ++ ("\n")
     else (""))
  let info := info ++
    (if jsTruthyNum coin.holders then
      ("👥 Holders: ") ++ escS (toLocaleString (coin.holders.getD 0)) ++ ("\n")
     else (""))
  let info := info ++
    (if jsTruthyStr coin.age then
      ("⏰ Age: ") ++ escS (coin.age.getD ("")) ++ ("\n")
     else (""))
  let info := info ++
    (if jsTruthyNum coin.progress then
      ("📈 Progress: ") ++ escS (jsNumToString (coin.progress.getD 0)) ++ ("\\%\n")
     else (""))
  let info := info ++
    (if jsTruthyStr coin.migrationTime then
      ("🚀 Migrated: ") ++ escS (coin.migrationTime.getD ("")) ++ ("\n")
     else (""))
  info ++ ("\n")

/-! ## Pulse command (worker.js handlePulseCommand, lines 171-229) -/

/-- The formatted blocks of one pulse section: at most five listings,
numbered from one (the slice(0, 5).forEach loop). -/
def renderPulseItemsList (v : List PulseCoin) : List String :=
  (v.take 5).enum.map (fun p => formatCoinInfo p.2 (p.1 + 1))

/-- Concatenation of one section's formatted blocks. -/
def renderPulseItems (v : List PulseCoin) : String :=
  String.join (renderPulseItemsList v)

/-- One labeled section of the pulse reply: rendered only when the
section fulfilled with a non-empty list (worker.js lines 185-209). -/
def pulseSectionBlock (title : String) (s : Settled (List PulseCoin)) : String :=
  match s with
  | .rejected => ("")
  | .fulfilled v =>
    if 0 < v.length then title ++ renderPulseItems v ++ ("\n") else ("")

/-- The all-rejected / all-empty status note of the pulse reply
(worker.js lines 211-220). -/
def pulseStatusLine (s1 s2 s3 : Settled (List PulseCoin)) : String :=
  if s1.isRejected && s2.isRejected && s3.isRejected then
    ("❌ Unable to fetch pulse data from Axiom Trade\\. Please try again later\\.\n\n")
  else if s1.isEmptyFulfilled && s2.isEmptyFulfilled && s3.isEmptyFulfilled then
    ("📭 No new coins found in pulse sections at the moment\\.\n\n")
  else ("")

/-- The full pulse reply text assembled from the three settled sections
(worker.js lines 182-222). -/
def pulseMessage (s1 s2 s3 : Settled (List PulseCoin)) : String :=
  ("🚀 *Axiom Trade Pulse \\- New Coins*\n\n") ++
  pulseSectionBlock ("🆕 *New Pairs*\n") s1 ++
  pulseSectionBlock ("🏁 *Final Stretch*\n") s2 ++
  pulseSectionBlock ("✅ *Migrated to Raydium*\n") s3 ++
  pulseStatusLine s1 s2 s3 ++
  ("/help \\- Show commands")

/-- The pulse reply for given section outcomes: all three fetches settle
as fulfilled (fetchAxiomPulseData never throws). -/
def pulseReplyText (p : PulseEnv) : String :=
  pulseMessage (settleAxiomFetch ("new-pairs") p.newPairs)
    (settleAxiomFetch ("final-stretch") p.finalStretch)
    (settleAxiomFetch ("migrated") p.migrated)

/-- Embedding of handlePulseCommand (worker.js lines 171-229): a
progress notice is sent first, then the assembled reply; any error
thrown inside the try (only a failed send, since the fetches cannot
throw) is answered with the fixed failure text, whose own send may
rethrow. -/
def handlePulseCommand (delivery : Nat → Bool) (chatId : Option Int)
    (p : PulseEnv) (st : SendState) : Except SendState SendState :=
  tryCatch
    (match sendMessage delivery chatId
        ("🔄 Fetching new coins from Axiom Trade pulse\\.\\.\\.") st with
     | .error st1 => .error st1
     | .ok st1 => sendMessage delivery chatId (pulseReplyText p) st1)
    (fun stE => sendMessage delivery chatId
      ("❌ Failed to fetch pulse data from Axiom Trade\\. Please try again later\\.") stE)

/-! ## Remaining command handlers (worker.js lines 140-368) -/

/-- Embedding of handleGlobalCommand (worker.js lines 140-162). -/
def handleGlobalCommand (delivery : Nat → Bool) (chatId : Option Int)
    (res : FetchResult GlobalStats) (st : SendState) : Except SendState SendState :=
  tryCatch
    (match res with
     | .err => .error st
     | .ok stats => sendMessage delivery chatId (globalMessage stats) st)
    (fun stE => sendMessage delivery chatId
      ("❌ Failed to fetch global market stats\\. Please try again later\\.") stE)

/-- Embedding of handleTop10Command (worker.js lines 269-310). -/
def handleTop10Command (delivery : Nat → Bool) (chatId : Option Int)
    (res : FetchResult (List MarketCoin)) (st : SendState) :
    Except SendState SendState :=
  tryCatch
    (match res with
     | .err => .error st
     | .ok coins => sendMessage delivery chatId (top10Message coins) st)
    (fun stE => sendMessage delivery chatId
      ("❌ Failed to fetch top 10 cryptocurrencies\\. Please try again later\\.") stE)

/-- Embedding of handleTrendingCommand (worker.js lines 238-260). -/
def handleTrendingCommand (delivery : Nat → Bool) (chatId : Option Int)
    (res : FetchResult (List TrendingCoin)) (st : SendState) :
    Except SendState SendState :=
  tryCatch
    (match res with
     | .err => .error st
     | .ok coins => sendMessage delivery chatId (trendingMessage coins) st)
    (fun stE => sendMessage delivery chatId
      ("❌ Failed to fetch trending coins\\. Please try again later\\.") stE)

/-- Embedding of handlePriceCommand (worker.js lines 320-368): a search
with an absent or empty coins array answers with the not-found text (a
normal-path reply inside the try); a thrown search or detail fetch hits
the catch and answers with the failure text. -/
def handlePriceCommand (delivery : Nat → Bool) (chatId : Option Int)
    (coin : Option String) (p : PriceEnv) (st : SendState) :
    Except SendState SendState :=
  tryCatch
    (match p.search with
     | .err => .error st
     | .ok none =>
       sendMessage delivery chatId
         (("❌ Could not find cryptocurrency: ") ++ escapeMarkdown coin) st
     | .ok (some hits) =>
       if hits.length = 0 then
         sendMessage delivery chatId
           (("❌ Could not find cryptocurrency: ") ++ escapeMarkdown coin) st
       else
         match p.detail with
         | .err => .error st
         | .ok d => sendMessage delivery chatId (priceMessage d) st)
    (fun stE => sendMessage delivery chatId
      (("❌ Failed to fetch price for ") ++ escapeMarkdown coin ++
        ("\\. Please try again later\\.")) stE)

/-! ## Command dispatch (worker.js handleTelegramUpdate, lines 92-131) -/

/-- The matching chain of the dispatcher applied to the already
lower-cased text (worker.js lines 103-126): exact match against the
fixed tokens, then prefix match against '/price '; the /price argument
is text.split(' ')[1]. -/
def parseCommandCore (text : String) : Command :=
  if text = ("/start") || text = ("/help") then .help
  else if text = ("/top10") then .top10
  else if text = ("/trending") then .trending
  else if text = ("/pulse") then .pulse
  else if text = ("/global") then .globalCmd
  else if strStartsWith text ("/price ") then .price ((jsSplitSpace text).get? 1)
  else .unrecognized

/-- The command classification of the dispatch chain: the message text
is lower-cased first (worker.js line 99), then matched. -/
def parseCommand (raw : String) : Command :=
  parseCommandCore (toLowerStr raw)

/-- The branch body of the dispatch chain for one classified command. -/
def dispatchCommand (delivery : Nat → Bool) (chatId : Option Int) (env : Env)
    (cmd : Command) (st : SendState) : Except SendState SendState :=
  match cmd with
  | .help => sendMessage delivery chatId helpText st
  | .top10 => handleTop10Command delivery chatId env.top10 st
  | .trending => handleTrendingCommand delivery chatId env.trending st
  | .pulse => handlePulseCommand delivery chatId env.pulse st
  | .globalCmd => handleGlobalCommand delivery chatId env.globalStats st
  | .price arg => handlePriceCommand delivery chatId arg env.price st
  | .unrecognized => .ok st

/-- The catch at the dispatch boundary (worker.js lines 127-130): an
error thrown by a handler is answered with one fixed apology send,
whose own failure escapes the handler uncaught. -/
def dispatchBoundary (delivery : Nat → Bool) (chatId : Option Int)
    (r : Except SendState SendState) : DispatchResult :=
  match r with
  | .ok st => ⟨st.sends, false⟩
  | .error st =>
    match sendMessage delivery chatId
        ("❌ Sorry, an error occurred\\. Please try again later\\.") st with
    | .ok st2 => ⟨st2.sends, false⟩
    | .error st2 => ⟨st2.sends, true⟩

/-- Embedding of handleTelegramUpdate (worker.js lines 92-131): updates
without a message or without truthy text return silently before anything
else runs; update.message.chat.id is then read unguarded, so an absent
chat object throws a TypeError before the try block (threw, no sends);
an absent id merely yields an undefined chat_id for every send. -/
def handleTelegramUpdate (u : Update) (env : Env) (delivery : Nat → Bool) :
    DispatchResult :=
  match u.message with
  | none => ⟨[], false⟩
  | some m =>
    match m.text with
    | none => ⟨[], false⟩
    | some t =>
      if t = ("") then ⟨[], false⟩
      else
        match m.chat with
        | none => ⟨[], true⟩
        | some chat =>
          dispatchBoundary delivery chat.id
            (dispatchCommand delivery chat.id env (parseCommand t) ⟨[], 0⟩)

/-- The webhook route of the worker fetch entry (worker.js lines 36-40):
the update handling is scheduled with ctx.waitUntil and the endpoint
answers 200 OK immediately, whatever the dispatch later does. -/
structure WebhookResult where
  status : Nat
  body : String
deriving DecidableEq

/-- Embedding of the POST /webhook branch for a parsed update. -/
def fetchWebhook (u : Update) (env : Env) (delivery : Nat → Bool) :
    WebhookResult × DispatchResult :=
  (⟨200, ("OK")⟩, handleTelegramUpdate u env delivery)

/-! ## Spec-side definitions used to compare claims with the code -/

/-- Strip leading and trailing whitespace from a string. -/
def trimStr (s : String) : String :=
  String.mk
    (((s.data.dropWhile Char.isWhitespace).reverse.dropWhile Char.isWhitespace).reverse)

/-- The first non-empty whitespace-delimited token of a string. -/
def firstWhitespaceToken (s : String) : Option String :=
  (((splitOnPred Char.isWhitespace s.data).map (fun l => String.mk l)).filter
    (fun x => x ≠ (""))).head?

/-- The command derivation exactly as claim C6 words it: case-insensitive
matching on the TRIMMED text, with the /price argument being the first
whitespace-delimited token after the prefix.  Written from the claim, to
be compared with parseCommand (which embeds the code). -/
def parseCommandClaim (raw : String) : Command :=
  let text := toLowerStr (trimStr raw)
  if text = ("/start") || text = ("/help") then .help
  else if text = ("/top10") then .top10
  else if text = ("/trending") then .trending
  else if text = ("/pulse") then .pulse
  else if text = ("/global") then .globalCmd
  else if strStartsWith text ("/price ") then
    .price (firstWhitespaceToken (strDrop text 7))
  else .unrecognized

/-! ## Concrete fixtures for closed counterexamples and witnesses -/

/-- An environment in which every upstream call fails. -/
def sampleEnv : Env :=
  { globalStats := .err, top10 := .err, trending := .err,
    price := { search := .err, detail := .err },
    pulse := { newPairs := .transportError, finalStretch := .transportError,
               migrated := .transportError } }

/-- A well-formed /pulse update. -/
def pulseUpdate : Update :=
  ⟨some { chat := some ⟨some 1⟩, text := some ("/pulse") }⟩

/-- A well-formed /help update. -/
def helpUpdate : Update :=
  ⟨some { chat := some ⟨some 42⟩, text := some ("/help") }⟩

/-- A /help update whose chat object exists but has no id field. -/
def noIdUpdate : Update :=
  ⟨some { chat := some ⟨none⟩, text := some ("/help") }⟩

/-- An update with text but no chat object at all. -/
def noChatUpdate : Update :=
  ⟨some { chat := none, text := some ("/hi") }⟩

/-- A pulse listing with only the mandatory name and symbol fields. -/
def bareCoin : PulseCoin :=
  { name := some ("Test"), symbol := some ("TKN") }

/-- The number of send attempts handleTelegramUpdate performs when every
delivery succeeds, per the amended claim C1: zero for a malformed update
(no message, no text, empty text, or a missing chat object, which throws
before any send) and for unrecognized text; two for /pulse (progress
notice plus reply); one for every other recognized command. -/
def expectedSendCount (u : Update) : Nat :=
  match u.message with
  | none => 0
  | some m =>
    match m.text with
    | none => 0
    | some t =>
      if t = ("") then 0
      else
        match m.chat with
        | none => 0
        | some _ =>
          match parseCommand t with
          | .pulse => 2
          | .unrecognized => 0
          | _ => 1

/-! ## Theorems -/

/-- Claim C2: the markup escaper maps null or absent input to the empty
string and rewrites a string character by character, prefixing exactly
the characters of the reserved set with a backslash and leaving every
other character unchanged, each occurrence in place. -/
theorem escapeMarkdown_contract :
    escapeMarkdown none = ("")
    ∧ (∀ s : String, escapeMarkdown (some s) = String.mk (escapeList s.data))
    ∧ (∀ (pre post : List Char) (c : Char),
        escapeList (pre ++ c :: post)
          = escapeList pre ++ escapeChar c ++ escapeList post)
    ∧ (∀ c : Char,
        escapeChar c = if reservedList.contains c then [('\\'), c] else [c]) := by
  refine ⟨rfl, fun s => rfl, ?_, fun c => rfl⟩
  intro pre post c
  simp [escapeList, List.append_assoc]

/-- Claim C3: a single-section pulse fetch never fails: a parsed payload
is normalized by shape (bare array, data array and tokens array pass
through, anything else yields the empty list), a transport failure or
non-success status yields the section's hardcoded fallback fixture, and
the promise always settles as fulfilled. -/
theorem fetchAxiomPulse_total_normalization :
    (∀ (s : String) (xs : List PulseCoin),
      fetchAxiomPulseData s (.payload (.arr xs)) = xs)
    ∧ (∀ (s : String) (xs : List PulseCoin),
      fetchAxiomPulseData s (.payload (.dataField xs)) = xs)
    ∧ (∀ (s : String) (xs : List PulseCoin),
      fetchAxiomPulseData s (.payload (.tokensField xs)) = xs)
    ∧ (∀ s : String, fetchAxiomPulseData s (.payload .other) = [])
    ∧ (∀ s : String, fetchAxiomPulseData s .transportError = getMockPulseData s)
    ∧ (∀ s : String, fetchAxiomPulseData s .httpError = getMockPulseData s)
    ∧ (∀ (s : String) (r : AxiomResponse),
      settleAxiomFetch s r = .fulfilled (fetchAxiomPulseData s r)) :=
  ⟨fun _ _ => rfl, fun _ _ => rfl, fun _ _ => rfl, fun _ => rfl,
   fun _ => rfl, fun _ => rfl, fun _ _ => rfl⟩

/-- Claim C7: a /price search that yields zero hits (an absent coins
array or an empty one) is answered on the normal path with exactly one
reply whose text is the fixed not-found sentence followed by the queried
term escaped exactly once - no price fields appear, whatever the detail
outcome. -/
theorem price_notfound_normal_path :
    ∀ (d : FetchResult CoinDetail) (c : Option Int) (q : Option String)
      (st : SendState),
      handlePriceCommand (fun _ => true) c q { search := .ok none, detail := d } st
        = .ok ⟨st.sends ++
            [⟨c, ("❌ Could not find cryptocurrency: ") ++ escapeMarkdown q⟩],
            st.next + 1⟩
      ∧ handlePriceCommand (fun _ => true) c q
          { search := .ok (some []), detail := d } st
        = .ok ⟨st.sends ++
            [⟨c, ("❌ Could not find cryptocurrency: ") ++ escapeMarkdown q⟩],
            st.next + 1⟩ :=
  fun _ _ _ _ => ⟨rfl, rfl⟩

/-- Claim C10: since the single-section fetch catches every failure and
fulfills with fallback data, none of the three settled promises is ever
rejected, the all-rejected branch of the pulse handler cannot fire, and
the status line of the reply is never the unable-to-fetch text. -/
theorem pulse_rejected_branch_unreachable :
    (∀ (s : String) (r : AxiomResponse),
      (settleAxiomFetch s r).isRejected = false)
    ∧ (∀ r1 r2 r3 : AxiomResponse,
      ((settleAxiomFetch ("new-pairs") r1).isRejected
        && (settleAxiomFetch ("final-stretch") r2).isRejected
        && (settleAxiomFetch ("migrated") r3).isRejected) = false)
    ∧ (∀ r1 r2 r3 : AxiomResponse,
      pulseStatusLine (settleAxiomFetch ("new-pairs") r1)
          (settleAxiomFetch ("final-stretch") r2)
          (settleAxiomFetch ("migrated") r3)
        ≠ ("❌ Unable to fetch pulse data from Axiom Trade\\. Please try again later\\.\n\n")) := by
  refine ⟨fun _ _ => rfl, fun _ _ _ => rfl, ?_⟩
  intro r1 r2 r3
  simp only [pulseStatusLine, settleAxiomFetch, Settled.isRejected,
    Bool.false_and, Bool.false_eq_true, if_false]
  split
  · decide
  · decide

/-- Claim C10 witness: the unreachable-branch theorem applied to three
concrete transport failures. -/
theorem pulse_rejected_branch_unreachable_witness :
    pulseStatusLine (settleAxiomFetch ("new-pairs") .transportError)
        (settleAxiomFetch ("final-stretch") .transportError)
        (settleAxiomFetch ("migrated") .transportError)
      ≠ ("❌ Unable to fetch pulse data from Axiom Trade\\. Please try again later\\.\n\n") :=
  pulse_rejected_branch_unreachable.2.2 .transportError .transportError
    .transportError

/-- A failed section fetch (transport failure or non-success status)
returns the section's fallback fixture. -/
theorem fetch_mock_of_failure (s : String) (r : AxiomResponse)
    (h : r.isFailure = true) : fetchAxiomPulseData s r = getMockPulseData s := by
  cases r with
  | transportError => rfl
  | httpError => rfl
  | payload sh => simp [AxiomResponse.isFailure] at h

/-- The no-new-coins notice appears in the pulse status line exactly when
all three section fetches normalized to empty lists. -/
theorem pulse_notice_iff (r1 r2 r3 : AxiomResponse) :
    pulseStatusLine (settleAxiomFetch ("new-pairs") r1)
        (settleAxiomFetch ("final-stretch") r2)
        (settleAxiomFetch ("migrated") r3)
      = ("📭 No new coins found in pulse sections at the moment\\.\n\n")
    ↔ (fetchAxiomPulseData ("new-pairs") r1 = []
        ∧ fetchAxiomPulseData ("final-stretch") r2 = []
        ∧ fetchAxiomPulseData ("migrated") r3 = []) := by
  simp only [pulseStatusLine, settleAxiomFetch, Settled.isRejected,
    Settled.isEmptyFulfilled, Bool.false_and, Bool.false_eq_true, if_false]
  split
  next h =>
    simp only [Bool.and_eq_true, beq_iff_eq, List.length_eq_zero] at h
    simp [h.1.1, h.1.2, h.2]
  next h =>
    constructor
    · intro he
      exact absurd he (by decide)
    · rintro ⟨e1, e2, e3⟩
      exact absurd (by rw [e1, e2, e3]; rfl) h

/-- Claim C4 (amended): when all three pulse section fetches fail, the
reply renders each section's entire fallback fixture - two listings for
new-pairs, one for final-stretch, one for migrated, all within the
five-item cap - and the no-new-coins notice is rendered exactly when all
three sections fulfil with empty listings, hence never on pure failure
(the fixtures are non-empty). -/
theorem pulse_failure_fallback (r1 r2 r3 : AxiomResponse)
    (h1 : r1.isFailure = true) (h2 : r2.isFailure = true)
    (h3 : r3.isFailure = true) :
    pulseReplyText ⟨r1, r2, r3⟩
      = ("🚀 *Axiom Trade Pulse \\- New Coins*\n\n") ++
        (("🆕 *New Pairs*\n") ++
          renderPulseItems (getMockPulseData ("new-pairs")) ++ ("\n")) ++
        (("🏁 *Final Stretch*\n") ++
          renderPulseItems (getMockPulseData ("final-stretch")) ++ ("\n")) ++
        (("✅ *Migrated to Raydium*\n") ++
          renderPulseItems (getMockPulseData ("migrated")) ++ ("\n")) ++
        ("") ++
        ("/help \\- Show commands")
    ∧ (renderPulseItemsList (getMockPulseData ("new-pairs"))).length = 2
    ∧ (renderPulseItemsList (getMockPulseData ("final-stretch"))).length = 1
    ∧ (renderPulseItemsList (getMockPulseData ("migrated"))).length = 1
    ∧ (∀ q1 q2 q3 : AxiomResponse,
        pulseStatusLine (settleAxiomFetch ("new-pairs") q1)
            (settleAxiomFetch ("final-stretch") q2)
            (settleAxiomFetch ("migrated") q3)
          = ("📭 No new coins found in pulse sections at the moment\\.\n\n")
        ↔ (fetchAxiomPulseData ("new-pairs") q1 = []
            ∧ fetchAxiomPulseData ("final-stretch") q2 = []
            ∧ fetchAxiomPulseData ("migrated") q3 = [])) := by
  refine ⟨?_, rfl, rfl, rfl, pulse_notice_iff⟩
  have e1 := fetch_mock_of_failure ("new-pairs") r1 h1
  have e2 := fetch_mock_of_failure ("final-stretch") r2 h2
  have e3 := fetch_mock_of_failure ("migrated") r3 h3
  show pulseMessage (.fulfilled (fetchAxiomPulseData ("new-pairs") r1))
      (.fulfilled (fetchAxiomPulseData ("final-stretch") r2))
      (.fulfilled (fetchAxiomPulseData ("migrated") r3)) = _
  rw [e1, e2, e3]
  rfl

/-- Claim C4 witness: the amended theorem applied at three concrete
failures; the final-stretch fallback fixture renders one listing. -/
theorem pulse_failure_fallback_witness :
    (renderPulseItemsList (getMockPulseData ("final-stretch"))).length = 1 :=
  (pulse_failure_fallback .transportError .httpError .transportError
    rfl rfl rfl).2.2.1

/-- Claim C4 counterexample: on failure the new-pairs section renders the
two listings of its fallback fixture, not five - the fixture has only two
entries, so a reply with five rendered items per section is impossible. -/
theorem pulse_five_items_refuted :
    (renderPulseItemsList (fetchAxiomPulseData ("new-pairs") .transportError)).length = 2
    ∧ ¬((renderPulseItemsList
          (fetchAxiomPulseData ("new-pairs") .transportError)).length = 5) := by
  decide

/-- A present numeric field holding zero is JS-falsy. -/
theorem jsTruthyNum_some_zero : jsTruthyNum (some 0) = false := by
  simp [jsTruthyNum]

/-- An absent numeric field is JS-falsy. -/
theorem jsTruthyNum_none : jsTruthyNum none = false := rfl

/-- A present empty string field is JS-falsy. -/
theorem jsTruthyStr_some_empty : jsTruthyStr (some ("")) = false := by
  simp [jsTruthyStr]

/-- An absent string field is JS-falsy. -/
theorem jsTruthyStr_none : jsTruthyStr none = false := rfl

/-- Claim C5 (amended): in the pulse listing formatter every optional
field except the 24h change - price, marketCap, volume24h, holders, the
age label, progressPercent and the migration-time label - is omitted
entirely when absent, and a zero value (empty string for the label
fields) is skipped exactly like a missing value; in particular
progressPercent: 0 produces no progress line.  The 24h-change line
however is always rendered, showing 0.00 with the positive glyph when
change24h is absent or zero: with only name and symbol present the
output is exactly the title line and the 24h line. -/
theorem formatCoinInfo_optional_fields :
    (∀ (c : PulseCoin) (i : Nat),
      formatCoinInfo { c with price := some 0 } i
        = formatCoinInfo { c with price := none } i)
    ∧ (∀ (c : PulseCoin) (i : Nat),
      formatCoinInfo { c with marketCap := some 0 } i
        = formatCoinInfo { c with marketCap := none } i)
    ∧ (∀ (c : PulseCoin) (i : Nat),
      formatCoinInfo { c with volume24h := some 0 } i
        = formatCoinInfo { c with volume24h := none } i)
    ∧ (∀ (c : PulseCoin) (i : Nat),
      formatCoinInfo { c with holders := some 0 } i
        = formatCoinInfo { c with holders := none } i)
    ∧ (∀ (c : PulseCoin) (i : Nat),
      formatCoinInfo { c with change24h := some 0 } i
        = formatCoinInfo { c with change24h := none } i)
    ∧ (∀ (c : PulseCoin) (i : Nat),
      formatCoinInfo { c with progress := some 0 } i
        = formatCoinInfo { c with progress := none } i)
    ∧ (∀ (c : PulseCoin) (i : Nat),
      formatCoinInfo { c with age := some ("") } i
        = formatCoinInfo { c with age := none } i)
    ∧ (∀ (c : PulseCoin) (i : Nat),
      formatCoinInfo { c with migrationTime := some ("") } i
        = formatCoinInfo { c with migrationTime := none } i)
    ∧ (∀ (n s : String) (i : Nat), n ≠ ("") → s ≠ ("") →
        formatCoinInfo { name := some n, symbol := some s } i
          = toString i ++ ("\\. ") ++ escS n ++ (" \\(") ++
            escS (toUpperStr s) ++ ("\\)\n") ++ ("🟢") ++ (" 24h: ") ++
            escS ("0.00") ++ ("\\%\n") ++ ("\n")) := by
  refine ⟨?_, ?_, ?_, ?_, ?_, ?_, ?_, ?_, ?_⟩
  · intro c i
    simp [formatCoinInfo, jsTruthyNum_some_zero, jsTruthyNum_none]
  · intro c i
    simp [formatCoinInfo, jsTruthyNum_some_zero, jsTruthyNum_none]
  · intro c i
    simp [formatCoinInfo, jsTruthyNum_some_zero, jsTruthyNum_none]
  · intro c i
    simp [formatCoinInfo, jsTruthyNum_some_zero, jsTruthyNum_none]
  · intro c i
    simp [formatCoinInfo, jsTruthyNum_some_zero, jsTruthyNum_none, jsNumOr]
  · intro c i
    simp [formatCoinInfo, jsTruthyNum_some_zero, jsTruthyNum_none]
  · intro c i
    simp [formatCoinInfo, jsTruthyStr_some_empty, jsTruthyStr_none]
  · intro c i
    simp [formatCoinInfo, jsTruthyStr_some_empty, jsTruthyStr_none]
  · intro n s i hn hs
    simp [formatCoinInfo, jsStrOr, jsTruthyStr, jsTruthyNum, jsNumOr, hn, hs,
      String.append_assoc]

/-- Claim C5 witness: the amended theorem's closed form applied to a
listing holding only a name and a symbol. -/
theorem formatCoinInfo_optional_fields_witness :
    formatCoinInfo bareCoin 1
      = toString 1 ++ ("\\. ") ++ escS ("Test") ++ (" \\(") ++
        escS (toUpperStr ("TKN")) ++ ("\\)\n") ++ ("🟢") ++ (" 24h: ") ++
        escS ("0.00") ++ ("\\%\n") ++ ("\n") :=
  formatCoinInfo_optional_fields.2.2.2.2.2.2.2.2 ("Test") ("TKN") 1
    (by decide) (by decide)

/-- Claim C5 counterexample: a listing with change24h absent still
renders the 24h line (with 0.00 and the positive glyph), so the
change24hPercent field is not omitted when absent as the claim states. -/
theorem formatCoinInfo_change_line_refuted :
    formatCoinInfo bareCoin 1 = ("1\\. Test \\(TKN\\)\n🟢 24h: 0\\.00\\%\n\n")
    ∧ strContains (formatCoinInfo bareCoin 1) (" 24h: ") = true := by
  decide

/-- Characterization of the matching chain on the lower-cased text: each
command is produced exactly by its token, and /price exactly by its
prefix with the argument being the second single-space-separated field. -/
theorem parseCommandCore_iff (t : String) :
    (parseCommandCore t = .help ↔ (t = ("/start") ∨ t = ("/help")))
    ∧ (parseCommandCore t = .top10 ↔ t = ("/top10"))
    ∧ (parseCommandCore t = .trending ↔ t = ("/trending"))
    ∧ (parseCommandCore t = .pulse ↔ t = ("/pulse"))
    ∧ (parseCommandCore t = .globalCmd ↔ t = ("/global"))
    ∧ (∀ a : Option String,
        parseCommandCore t = .price a
        ↔ (strStartsWith t ("/price ") = true
            ∧ a = (jsSplitSpace t).get? 1)) := by
  unfold parseCommandCore
  split
  next h =>
    simp only [Bool.or_eq_true, decide_eq_true_eq] at h
    rcases h with h | h <;> subst h <;>
      exact ⟨by decide, by decide, by decide, by decide, by decide,
        fun a => ⟨fun he => by simp at he,
          fun hr => absurd hr.1 (by decide)⟩⟩
  next hn1 =>
    split
    next h =>
      subst h
      exact ⟨by decide, by decide, by decide, by decide, by decide,
        fun a => ⟨fun he => by simp at he,
          fun hr => absurd hr.1 (by decide)⟩⟩
    next hn2 =>
      split
      next h =>
        subst h
        exact ⟨by decide, by decide, by decide, by decide, by decide,
          fun a => ⟨fun he => by simp at he,
            fun hr => absurd hr.1 (by decide)⟩⟩
      next hn3 =>
        split
        next h =>
          subst h
          exact ⟨by decide, by decide, by decide, by decide, by decide,
            fun a => ⟨fun he => by simp at he,
              fun hr => absurd hr.1 (by decide)⟩⟩
        next hn4 =>
          split
          next h =>
            subst h
            exact ⟨by decide, by decide, by decide, by decide, by decide,
              fun a => ⟨fun he => by simp at he,
                fun hr => absurd hr.1 (by decide)⟩⟩
          next hn5 =>
            split
            next h6 =>
              refine ⟨?_, ?_, ?_, ?_, ?_, ?_⟩
              · constructor
                · intro he; simp at he
                · rintro (h | h) <;> subst h <;> exact absurd h6 (by decide)
              · constructor
                · intro he; simp at he
                · intro h; subst h; exact absurd h6 (by decide)
              · constructor
                · intro he; simp at he
                · intro h; subst h; exact absurd h6 (by decide)
              · constructor
                · intro he; simp at he
                · intro h; subst h; exact absurd h6 (by decide)
              · constructor
                · intro he; simp at he
                · intro h; subst h; exact absurd h6 (by decide)
              · intro a
                simp [h6, eq_comm]
            next hn6 =>
              refine ⟨?_, ?_, ?_, ?_, ?_, ?_⟩
              · constructor
                · intro he; simp at he
                · rintro (h | h) <;> subst h <;> exact absurd (by decide) hn1
              · constructor
                · intro he; simp at he
                · intro h; exact absurd h hn2
              · constructor
                · intro he; simp at he
                · intro h; exact absurd h hn3
              · constructor
                · intro he; simp at he
                · intro h; exact absurd h hn4
              · constructor
                · intro he; simp at he
                · intro h; exact absurd h hn5
              · intro a
                constructor
                · intro he; simp at he
                · intro hr; exact absurd hr.1 hn6

/-- Claim C6 (amended): the command is derived by case-insensitive
matching on the lower-cased (untrimmed) message text: exact match for
/start, /help, /top10, /trending, /pulse and /global; prefix match
'/price ' taking the second single-space-separated field of the text as
the argument (the substring between the first and second space - empty
when two spaces follow the prefix - with further fields ignored); any
other text, including text with surrounding whitespace, yields no
command. -/
theorem parseCommand_characterization :
    (∀ raw : String,
      (parseCommand raw = .help
        ↔ (toLowerStr raw = ("/start") ∨ toLowerStr raw = ("/help")))
      ∧ (parseCommand raw = .top10 ↔ toLowerStr raw = ("/top10"))
      ∧ (parseCommand raw = .trending ↔ toLowerStr raw = ("/trending"))
      ∧ (parseCommand raw = .pulse ↔ toLowerStr raw = ("/pulse"))
      ∧ (parseCommand raw = .globalCmd ↔ toLowerStr raw = ("/global"))
      ∧ (∀ a : Option String,
          parseCommand raw = .price a
          ↔ (strStartsWith (toLowerStr raw) ("/price ") = true
              ∧ a = (jsSplitSpace (toLowerStr raw)).get? 1)))
    ∧ parseCommand ("/Help") = .help
    ∧ parseCommand ("/PRICE btc eth") = .price (some ("btc"))
    ∧ parseCommand ("hello") = .unrecognized :=
  ⟨fun raw => parseCommandCore_iff (toLowerStr raw), by decide, by decide, by decide⟩

/-- Claim C6 counterexample: the dispatcher does not trim - a help
command with a leading space yields no command although the claim's
trimmed matching would accept it - and the /price argument is the field
between the first two spaces, not the first whitespace-delimited token:
with two spaces after the prefix the code takes the empty string where
the claim's reading takes the token. -/
theorem parseCommand_trim_refuted :
    parseCommand (" /help") = .unrecognized
    ∧ parseCommandClaim (" /help") = .help
    ∧ parseCommand ("/price  btc") = .price (some (""))
    ∧ parseCommandClaim ("/price  btc") = .price (some ("btc")) := by
  decide

/-- Claim C8 (amended): a payload without a message, without message.text
or with empty text is silently dropped - no send, no error.  The chat id
however is never validated: if message.chat is absent the handler throws
a TypeError before any send (an uncaught error, though the webhook
acknowledgment is unaffected), and if only chat.id is absent the reply
is still sent with an undefined chat id. -/
theorem update_guard_behavior :
    (∀ (env : Env) (d : Nat → Bool),
      handleTelegramUpdate ⟨none⟩ env d = ⟨[], false⟩)
    ∧ (∀ (env : Env) (d : Nat → Bool) (chat : Option Chat),
      handleTelegramUpdate ⟨some ⟨chat, none⟩⟩ env d = ⟨[], false⟩)
    ∧ (∀ (env : Env) (d : Nat → Bool) (chat : Option Chat),
      handleTelegramUpdate ⟨some ⟨chat, some ("")⟩⟩ env d = ⟨[], false⟩)
    ∧ (∀ (env : Env) (d : Nat → Bool) (t : String), t ≠ ("") →
      handleTelegramUpdate ⟨some ⟨none, some t⟩⟩ env d = ⟨[], true⟩)
    ∧ (∀ (env : Env) (i : Option Int),
      (handleTelegramUpdate ⟨some ⟨some ⟨i⟩, some ("/help")⟩⟩ env
        (fun _ => true)).sends = [⟨i, helpText⟩]) := by
  refine ⟨fun _ _ => rfl, fun _ _ _ => rfl, fun _ _ _ => rfl, ?_, fun _ _ => rfl⟩
  intro env d t ht
  simp [handleTelegramUpdate, ht]

/-- Claim C8 witness: the amended theorem applied to a non-empty text
with no chat object: the handler throws without sending. -/
theorem update_guard_behavior_witness :
    handleTelegramUpdate ⟨some ⟨none, some ("x")⟩⟩ sampleEnv (fun _ => true)
      = ⟨[], true⟩ :=
  update_guard_behavior.2.2.2.1 sampleEnv (fun _ => true) ("x") (by decide)

/-- Claim C8 counterexample: a payload whose chat object lacks the id
field is not dropped - the /help reply is still sent (with an undefined
chat id) - and a payload lacking the chat object entirely surfaces a
thrown TypeError; the claimed silent drop on a missing chat.id does not
happen. -/
theorem update_guard_chatid_refuted :
    (handleTelegramUpdate noIdUpdate sampleEnv (fun _ => true)).sends.length = 1
    ∧ ¬((handleTelegramUpdate noIdUpdate sampleEnv (fun _ => true)).sends = [])
    ∧ handleTelegramUpdate noChatUpdate sampleEnv (fun _ => true) = ⟨[], true⟩ := by
  decide

/-- Claim C9 (amended): a send the platform rejects is logged at the
point of sending and rethrown after exactly one attempt - sendMessage
itself never retries - and the dispatch boundary answers the rethrown
error with exactly one fixed apology send (the original text is not
retried); the webhook endpoint reports 200 OK regardless of any
delivery outcome, since dispatch runs detached from the response. -/
theorem delivery_error_handling :
    (∀ (d : Nat → Bool) (c : Option Int) (t : String) (st : SendState),
      d st.next = false →
      sendMessage d c t st = .error ⟨st.sends ++ [⟨c, t⟩], st.next + 1⟩)
    ∧ (∀ (d : Nat → Bool) (c : Option Int) (st : SendState),
      (dispatchBoundary d c (.error st)).sends
        = st.sends ++
          [⟨c, ("❌ Sorry, an error occurred\\. Please try again later\\.")⟩])
    ∧ (∀ (u : Update) (env : Env) (d : Nat → Bool),
      (fetchWebhook u env d).1 = ⟨200, ("OK")⟩) := by
  refine ⟨?_, ?_, fun _ _ _ => rfl⟩
  · intro d c t st h
    simp [sendMessage, h]
  · intro d c st
    cases hd : d st.next <;> simp [dispatchBoundary, sendMessage, hd]

/-- Claim C9 witness: the amended theorem's first part applied to a
rejecting delivery at a concrete state. -/
theorem delivery_error_handling_witness :
    sendMessage (fun _ => false) (some 5) ("hi") ⟨[], 0⟩
      = .error ⟨[⟨some 5, ("hi")⟩], 1⟩ :=
  delivery_error_handling.1 (fun _ => false) (some 5) ("hi") ⟨[], 0⟩ rfl

/-- Claim C9 counterexample: when the platform rejects the /help reply,
a further send is attempted for that message - the dispatch boundary
sends the apology text - so two send attempts occur, refuting the claim
that no further send is attempted. -/
theorem delivery_no_retry_refuted :
    (handleTelegramUpdate helpUpdate sampleEnv (fun _ => false)).sends.length = 2
    ∧ ¬((handleTelegramUpdate helpUpdate sampleEnv
          (fun _ => false)).sends.length ≤ 1) := by
  decide

/-- Claim C1 (amended): when every delivery succeeds, dispatching a
single inbound message makes zero send calls for malformed input (no
message, no text, empty text, or a chat-less message, which throws
first) and for unrecognized text, exactly two send calls for /pulse (the
progress notice and the reply), and exactly one for every other
recognized command. -/
theorem dispatcher_reply_count (u : Update) (env : Env) :
    (handleTelegramUpdate u env (fun _ => true)).sends.length
      = expectedSendCount u := by
  obtain ⟨g, t10, tr, pr, pu⟩ := env
  obtain ⟨se, de⟩ := pr
  obtain ⟨msg⟩ := u
  cases msg with
  | none => rfl
  | some m =>
    obtain ⟨chat, text⟩ := m
    cases text with
    | none => rfl
    | some t =>
      by_cases ht : t = ("")
      · subst ht; rfl
      · cases chat with
        | none => simp [handleTelegramUpdate, expectedSendCount, ht]
        | some ch =>
          have hcore :
              handleTelegramUpdate ⟨some ⟨some ch, some t⟩⟩
                  ⟨g, t10, tr, ⟨se, de⟩, pu⟩ (fun _ => true)
                = dispatchBoundary (fun _ => true) ch.id
                    (dispatchCommand (fun _ => true) ch.id
                      ⟨g, t10, tr, ⟨se, de⟩, pu⟩ (parseCommand t) ⟨[], 0⟩) := by
            simp [handleTelegramUpdate, ht]
          have hexp :
              expectedSendCount ⟨some ⟨some ch, some t⟩⟩
                = (match parseCommand t with
                   | .pulse => 2
                   | .unrecognized => 0
                   | _ => 1) := by
            simp [expectedSendCount, ht]
          rw [hcore, hexp]
          cases parseCommand t with
          | help => rfl
          | top10 => cases t10 <;> rfl
          | trending => cases tr <;> rfl
          | pulse => rfl
          | globalCmd => cases g <;> rfl
          | price a =>
            cases se with
            | err => rfl
            | ok o =>
              cases o with
              | none => rfl
              | some hits =>
                cases hits with
                | nil => rfl
                | cons x xs => cases de <;> rfl
          | unrecognized => rfl

/-- Claim C1 counterexample: a well-formed /pulse message produces two
outbound send calls even with every delivery succeeding - the progress
notice and the reply - refuting the claim that every command makes at
most one send call. -/
theorem dispatcher_single_reply_refuted :
    (handleTelegramUpdate pulseUpdate sampleEnv (fun _ => true)).sends.length = 2
    ∧ ¬((handleTelegramUpdate pulseUpdate sampleEnv
          (fun _ => true)).sends.length ≤ 1) := by
  decide

end TgBot
